import Mathlib

/-!
# Verification of the Chesster turn-orchestration and adjudication engine

A shallow embedding of the Python sources of the Chesster repository
(src/chesster/timer, src/chesster/records, src/chesster/game, src/chesster/match),
with theorems settling the specification claims about timers, result
adjudication, game and match records, and record serialization.

Conventions of the embedding:
* Python floats that hold wall-clock durations are modelled as rationals.
* Every method that reads the wall clock (`time.perf_counter()`) takes an
  explicit `now : Rat` argument.
* Methods that can raise are modelled with `Except`; the Python exception
  classes `TimerError`, `TypeError`, `KeyError`, `ValueError` and
  `GameEndedException` become constructors of error types below.
* `chess.WHITE` is the Python constant `True` and `chess.BLACK` is `False`;
  colors are therefore booleans, `true` = White, `false` = Black.
-/

set_option autoImplicit false

deriving instance DecidableEq for Except

/-- Python error values raised by the embedded code. -/
inductive PyError where
  | typeError (msg : String)
  | keyError (key : String)
  | valueError (msg : String)
  | gameEnded
  deriving DecidableEq, Repr

/-- Embeds `chesster.timer.base.TimerError`: thrown if start and stop are used in
the incorrect way. -/
inductive TimerError where
  | already_running
  | not_running
  deriving DecidableEq, Repr

/-- The external rules-engine move (`chess.Move`).  The only attribute the
repository reads from a move is its UCI string, and `chess.Move.from_uci`
rebuilds a move from that string, so a move is modelled by its UCI string. -/
structure Chess.Move where
  uci : String
  deriving DecidableEq, Repr, Inhabited

/-- Embeds `chess.Move.from_uci`. -/
def Chess.Move.from_uci (s : String) : Chess.Move := { uci := s }

/-- The external rules-engine board (`chess.Board`), an opaque immutable value.
The repository reads exactly three attributes from a board: `turn` (the side
to move), `is_checkmate()` and the attribute `color` (read by
`IllegalMove.offending_color` in game/exceptions.py and game/base.py), so a
board is modelled by those observations.  The FEN string `board.fen()` of the
external engine determines the position, and `chess.Board(fen=s)` rebuilds the
position from it, so in this embedding a board string is identified with the
board value it denotes: the `board` slots of the serialized dictionaries below
hold a `Chess.Board`, standing for its FEN string, and equality of slots is
equality of FEN strings. -/
structure Chess.Board where
  turn : Bool
  color : Bool
  is_checkmate : Bool
  deriving DecidableEq, Repr, Inhabited

/-- State of `chesster.timer.base.BaseTimer`.  Field `x` models the Python
attribute `_x`: `start_seconds`, `_seconds_left`, `_start_time`,
`_time_clocked`, `_increment_seconds`, `_elapsed_times`. -/
structure BaseTimer where
  start_seconds : Rat
  seconds_left : Rat
  start_time : Option Rat
  time_clocked : Rat
  increment_seconds : Rat
  elapsed_times : List Rat
  deriving DecidableEq, Repr

/-- Embeds `BaseTimer.__init__`, modelled with an explicit positional-argument list:
Python checks the arity of the call dynamically, and
`BronsteinDelayTimer.__init__` passes only one positional argument. -/
def BaseTimer.init_argv (args : List Rat) : Except PyError BaseTimer :=
  match args with
  | [start_seconds, increment_seconds] =>
      .ok { start_seconds := start_seconds
            seconds_left := start_seconds
            start_time := none
            time_clocked := 0
            increment_seconds := increment_seconds
            elapsed_times := [] }
  | _ => .error (.typeError ("BaseTimer.__init__ missing required positional argument increment_seconds"))

/-- Embeds `BaseTimer._elapsed_seconds`: seconds elapsed since the timer started,
`0` if it is not running. -/
def BaseTimer.elapsed_seconds (now : Rat) (t : BaseTimer) : Rat :=
  match t.start_time with
  | none => 0
  | some s => now - s

/-- Value of the read-only property `BaseTimer.seconds_left`:
`self._seconds_left - self._elapsed_seconds()`. -/
def BaseTimer.seconds_left_val (now : Rat) (t : BaseTimer) : Rat :=
  t.seconds_left - t.elapsed_seconds now

/-- Value of the property `BaseTimer.alive`: `self.seconds_left > 0`. -/
def BaseTimer.alive (now : Rat) (t : BaseTimer) : Bool :=
  decide (0 < t.seconds_left_val now)

/-- Value of the property `BaseTimer.time_clocked`:
`self._time_clocked + self._elapsed_seconds()`. -/
def BaseTimer.time_clocked_val (now : Rat) (t : BaseTimer) : Rat :=
  t.time_clocked + t.elapsed_seconds now

/-- The property read `BaseTimer.seconds_left` as a state transformer: the
body of the Python property contains only attribute reads, so the resulting
state is the input state. -/
def BaseTimer.seconds_left_read (now : Rat) (t : BaseTimer) : Rat × BaseTimer :=
  (t.seconds_left - t.elapsed_seconds now, t)

/-- The property read `BaseTimer.alive` as a state transformer. -/
def BaseTimer.alive_read (now : Rat) (t : BaseTimer) : Bool × BaseTimer :=
  (t.alive now, t)

/-- The property read `BaseTimer.time_clocked` as a state transformer. -/
def BaseTimer.time_clocked_read (now : Rat) (t : BaseTimer) : Rat × BaseTimer :=
  (t.time_clocked + t.elapsed_seconds now, t)

/-- Embeds `BaseTimer.start`: raises `TimerError` if already running, otherwise
records the current instant. -/
def BaseTimer.start (now : Rat) (t : BaseTimer) : Except TimerError BaseTimer :=
  match t.start_time with
  | some _ => .error .already_running
  | none => .ok { t with start_time := some now }

/-- Embeds `BaseTimer.stop`: raises `TimerError` if not running; otherwise computes
the elapsed time, subtracts it from `_seconds_left`, adds it to
`_time_clocked`, clears `_start_time`, appends it to `_elapsed_times`, and
returns it. -/
def BaseTimer.stop (now : Rat) (t : BaseTimer) : Except TimerError (Rat × BaseTimer) :=
  match t.start_time with
  | none => .error .not_running
  | some _ =>
    let elapsed := t.elapsed_seconds now
    .ok (elapsed,
      { t with seconds_left := t.seconds_left - elapsed
               time_clocked := t.time_clocked + elapsed
               start_time := none
               elapsed_times := t.elapsed_times ++ [elapsed] })

/-- Embeds `BaseTimer.reset`: tries to stop the timer, silently absorbing the
`TimerError` of a non-running timer, then rebinds `_seconds_left` to
`_start_seconds` and clears `_time_clocked` and `_elapsed_times`. -/
def BaseTimer.reset (now : Rat) (t : BaseTimer) : BaseTimer :=
  let t1 := match BaseTimer.stop now t with
            | .ok (_, t2) => t2
            | .error _ => t
  { t1 with seconds_left := t1.start_seconds
            time_clocked := 0
            elapsed_times := [] }

/-- Embeds `IncrementTimer.__init__`: forwards both arguments to
`BaseTimer.__init__`. -/
def IncrementTimer.init (start_seconds increment_seconds : Rat) : Except PyError BaseTimer :=
  BaseTimer.init_argv [start_seconds, increment_seconds]

/-- Embeds `IncrementTimer.stop` (timer/increment.py): calls `BaseTimer.stop`, then
adds the configured increment to `_seconds_left` only if the timer is still
`alive`. -/
def IncrementTimer.stop (now : Rat) (t : BaseTimer) : Except TimerError BaseTimer := do
  let (_, t1) ← BaseTimer.stop now t
  if t1.alive now then
    pure { t1 with seconds_left := t1.seconds_left + t1.increment_seconds }
  else
    pure t1

/-- Embeds `BronsteinDelayTimer.__init__` (timer/bronstein.py): calls
`super().__init__(start_seconds)` with a single positional argument, then
sets `_increment_seconds`. -/
def BronsteinDelayTimer.init (start_seconds increment_seconds : Rat) : Except PyError BaseTimer := do
  let t ← BaseTimer.init_argv [start_seconds]
  pure { t with increment_seconds := increment_seconds }

/-- Embeds `BronsteinDelayTimer.stop`: calls `BaseTimer.stop`; if the timer is still
`alive`, adds back `min(elapsed, _increment_seconds)` to `_seconds_left`. -/
def BronsteinDelayTimer.stop (now : Rat) (t : BaseTimer) : Except TimerError BaseTimer := do
  let (elapsed, t1) ← BaseTimer.stop now t
  if t1.alive now then
    if elapsed ≥ t1.increment_seconds then
      pure { t1 with seconds_left := t1.seconds_left + t1.increment_seconds }
    else
      pure { t1 with seconds_left := t1.seconds_left + elapsed }
  else
    pure t1

/-- The timer classes registered in the `timers` dictionary of
timer/__init__.py. -/
inductive TimerClass where
  | BasicTimer
  | BronsteinDelayTimer
  | IncrementTimer
  deriving DecidableEq, Repr

/-- A timer object: its Python class together with its `BaseTimer` state.
The class decides which `to_dict` override and which constructor the
polymorphic dispatch of records/result.py selects. -/
structure TimerObj where
  cls : TimerClass
  st : BaseTimer
  deriving DecidableEq, Repr

/-- Embeds `IllegalMove` (game/exceptions.py, and the identical class in
game/base.py): the exception that carries the board and the attempted
move. -/
structure IllegalMove where
  board : Chess.Board
  move : Chess.Move
  deriving DecidableEq, Repr

/-- Embeds `IllegalMove.offending_color`: the attribute read `self.board.color`. -/
def IllegalMove.offending_color (e : IllegalMove) : Bool :=
  e.board.color

/-- Embeds `IllegalMove.offending_color_name`. -/
def IllegalMove.offending_color_name (e : IllegalMove) : String :=
  if e.offending_color = true then ("White") else ("Black")

/-- State of `chesster.records.result.GameResult`: the final board, the two
timer objects, the optional illegal-move fault, and the lazily computed
caches `_color`, `_reason` and `_short_reason` (all `None` after
`__init__`). -/
structure GameResult where
  board : Chess.Board
  white_timer : TimerObj
  black_timer : TimerObj
  illegal_move : Option IllegalMove
  color_cache : Option Bool
  reason_cache : Option String
  short_reason_cache : Option String
  deriving DecidableEq, Repr

/-- Embeds `GameResult.__init__` of records/result.py. -/
def GameResult.init (board : Chess.Board) (white_timer black_timer : TimerObj)
    (illegal_move : Option IllegalMove) : GameResult :=
  { board := board
    white_timer := white_timer
    black_timer := black_timer
    illegal_move := illegal_move
    color_cache := none
    reason_cache := none
    short_reason_cache := none }

/-- Embeds `GameResult._determine_winner` of records/result.py: analyze the board
and timers and store winner and reason in the caches.  Each timer property
read is evaluated at the instant `now`. -/
def GameResult.determine_winner (now : Rat) (s : GameResult) : GameResult :=
  if s.board.is_checkmate then
    { s with color_cache := some (!s.board.turn)
             reason_cache := some ("checkmate")
             short_reason_cache := some ("checkmate") }
  else
    match s.illegal_move with
    | some im =>
      { s with color_cache := some (!im.offending_color)
               reason_cache := some ("illegal move")
               short_reason_cache := some ("illegal move") }
    | none =>
      if s.black_timer.st.alive now = false then
        { s with color_cache := some true
                 reason_cache := some ("time out")
                 short_reason_cache := some ("time out") }
      else if s.white_timer.st.alive now = false then
        { s with color_cache := some false
                 reason_cache := some ("time out")
                 short_reason_cache := some ("time out") }
      else if s.black_timer.st.seconds_left_val now < s.white_timer.st.seconds_left_val now then
        { s with color_cache := some true
                 reason_cache := some ("more time on timer")
                 short_reason_cache := some ("timer") }
      else if s.white_timer.st.seconds_left_val now < s.black_timer.st.seconds_left_val now then
        { s with color_cache := some false
                 reason_cache := some ("more time on timer")
                 short_reason_cache := some ("timer") }
      else if s.white_timer.st.time_clocked_val now < s.black_timer.st.time_clocked_val now then
        { s with color_cache := some true
                 reason_cache := some ("less time computing")
                 short_reason_cache := some ("compute time") }
      else if s.black_timer.st.time_clocked_val now < s.white_timer.st.time_clocked_val now then
        { s with color_cache := some false
                 reason_cache := some ("less time computing")
                 short_reason_cache := some ("compute time") }
      else
        { s with color_cache := none
                 reason_cache := some ("total tie")
                 short_reason_cache := some ("total tie") }

/-- Whether the body of the property `GameResult.color` invokes
`_determine_winner`: the Python guard `if self._color is None`. -/
def GameResult.color_runs (s : GameResult) : Bool :=
  decide (s.color_cache = none)

/-- The property `GameResult.color` of records/result.py: computes the winner
if `_color` is still `None`, returns the cache and the (possibly updated)
object state. -/
def GameResult.color_prop (now : Rat) (s : GameResult) : Option Bool × GameResult :=
  if s.color_cache = none then
    let s1 := GameResult.determine_winner now s
    (s1.color_cache, s1)
  else
    (s.color_cache, s)

/-- The property `GameResult.reason` of records/result.py. -/
def GameResult.reason_prop (now : Rat) (s : GameResult) : Option String × GameResult :=
  if s.reason_cache = none then
    let s1 := GameResult.determine_winner now s
    (s1.reason_cache, s1)
  else
    (s.reason_cache, s)

/-- The property `GameResult.short_reason` of records/result.py. -/
def GameResult.short_reason_prop (now : Rat) (s : GameResult) : Option String × GameResult :=
  if s.short_reason_cache = none then
    let s1 := GameResult.determine_winner now s
    (s1.short_reason_cache, s1)
  else
    (s.short_reason_cache, s)

/-- State of the second `GameResult` implementation, the class defined in
game/base.py and used by `BaseGame.play_game`.  It has no `_short_reason`
cache, and its timers are plain `BaseTimer` states (only inherited
`BaseTimer` attributes are read). -/
structure GameBase.GameResult where
  board : Chess.Board
  white_timer : BaseTimer
  black_timer : BaseTimer
  illegal_move : Option IllegalMove
  color_cache : Option Bool
  reason_cache : Option String
  deriving DecidableEq, Repr

/-- Embeds `GameResult._determine_winner` of game/base.py.  Note the checkmate
branch: `self._color = self.board.turn`, the side to move. -/
def GameBase.GameResult.determine_winner (now : Rat) (s : GameBase.GameResult) :
    GameBase.GameResult :=
  if s.board.is_checkmate then
    { s with color_cache := some s.board.turn
             reason_cache := some ("Checkmate") }
  else
    match s.illegal_move with
    | some im =>
      { s with color_cache := some (!im.offending_color)
               reason_cache := some ("Illegal move by " ++ im.offending_color_name) }
    | none =>
      if s.black_timer.alive now = false then
        { s with color_cache := some true
                 reason_cache := some ("Black ran out of time") }
      else if s.white_timer.alive now = false then
        { s with color_cache := some false
                 reason_cache := some ("White ran out of time") }
      else if s.black_timer.seconds_left_val now < s.white_timer.seconds_left_val now then
        { s with color_cache := some true
                 reason_cache := some ("White has more time on timer") }
      else if s.white_timer.seconds_left_val now < s.black_timer.seconds_left_val now then
        { s with color_cache := some false
                 reason_cache := some ("Black has more time on timer") }
      else if s.white_timer.time_clocked_val now < s.black_timer.time_clocked_val now then
        { s with color_cache := some true
                 reason_cache := some ("White has spent less time computing") }
      else if s.black_timer.time_clocked_val now < s.white_timer.time_clocked_val now then
        { s with color_cache := some false
                 reason_cache := some ("Black has spent less time computing") }
      else
        { s with color_cache := none
                 reason_cache := some ("Total tie") }

/-- View a records/result.py result state as a game/base.py result state with
the same board, timers, fault and caches, for comparing the two
implementations of `_determine_winner` on the same adjudication input. -/
def GameResult.toBase (s : GameResult) : GameBase.GameResult :=
  { board := s.board
    white_timer := s.white_timer.st
    black_timer := s.black_timer.st
    illegal_move := s.illegal_move
    color_cache := s.color_cache
    reason_cache := s.reason_cache }

/-- Embeds `chesster.records.move.Move`: a record of one move.  `board` is the deep
copy taken by `__init__`; in this pure embedding copying is the identity. -/
structure Records.Move where
  move : Option Chess.Move
  color : Option Bool
  time_used : Option Rat
  board : Chess.Board
  deriving DecidableEq, Repr, Inhabited

/-- Embeds `Move.color_name`: the Python comparison `self.color == chess.WHITE` is
true only when the color is the value `True`; a `None` color therefore also
yields the name Black. -/
def Records.Move.color_name (m : Records.Move) : String :=
  match m.color with
  | some true => "White"
  | _ => "Black"

/-- The dictionary produced by `Move.to_dict`.  The `board` slot stands for
the FEN string `self.board.fen()` and the `move` slot for the UCI string of
the move (`None` for the seed record). -/
structure Records.MoveDict where
  move : Option String
  color : Option Bool
  color_name : String
  time_used : Option Rat
  board : Chess.Board
  deriving DecidableEq, Repr

/-- Embeds `Move.to_dict`. -/
def Records.Move.to_dict (m : Records.Move) : Records.MoveDict :=
  { move := m.move.map Chess.Move.uci
    color := m.color
    color_name := m.color_name
    time_used := m.time_used
    board := m.board }

/-- Embeds `Move.from_dict`: a `None` move slot is passed through untouched by the
Python truthiness test, otherwise the UCI string is re-parsed. -/
def Records.Move.from_dict (d : Records.MoveDict) : Records.Move :=
  { move := d.move.map Chess.Move.from_uci
    color := d.color
    time_used := d.time_used
    board := d.board }

/-- The dictionary produced by `IllegalMove.to_dict`: the FEN of the board
and the UCI string of the move. -/
structure IllegalMoveDict where
  board : Chess.Board
  move : String
  deriving DecidableEq, Repr

/-- Embeds `IllegalMove.to_dict`. -/
def IllegalMove.to_dict (e : IllegalMove) : IllegalMoveDict :=
  { board := e.board, move := e.move.uci }

/-- Embeds `IllegalMove.from_dict`. -/
def IllegalMove.from_dict (d : IllegalMoveDict) : IllegalMove :=
  { board := d.board, move := Chess.Move.from_uci d.move }

/-- The dictionary produced by the `to_dict` of a timer.  `BasicTimer.to_dict`
emits only the `class` and `time_clocked` keys, so every other slot is
optional; an absent slot raises `KeyError` when read back. -/
structure TimerDict where
  class_name : String
  start_seconds : Option Rat
  increment_seconds : Option Rat
  seconds_left : Option Rat
  time_clocked : Option Rat
  elapsed_times : Option (List Rat)
  average_elapsed_time : Option (Option Rat)
  deriving DecidableEq, Repr

/-- Value of the property `BaseTimer.average_elapsed_time`: `None` when no
elapsed times are recorded, the mean otherwise. -/
def BaseTimer.average_elapsed_time (t : BaseTimer) : Option Rat :=
  if t.elapsed_times.length = 0 then
    none
  else
    some (t.elapsed_times.sum / t.elapsed_times.length)

/-- The Python class name, `self.__class__.__name__`. -/
def TimerClass.name : TimerClass → String
  | .BasicTimer => "BasicTimer"
  | .BronsteinDelayTimer => "BronsteinDelayTimer"
  | .IncrementTimer => "IncrementTimer"

/-- Embeds `BaseTimer.to_dict`: emits every stored attribute plus the computed
average; inherited unchanged by `IncrementTimer` and `BronsteinDelayTimer`. -/
def BaseTimer.to_dict (c : TimerClass) (t : BaseTimer) : TimerDict :=
  { class_name := c.name
    start_seconds := some t.start_seconds
    increment_seconds := some t.increment_seconds
    seconds_left := some t.seconds_left
    time_clocked := some t.time_clocked
    elapsed_times := some t.elapsed_times
    average_elapsed_time := some t.average_elapsed_time }

/-- Polymorphic `to_dict` dispatch: `BasicTimer` overrides `to_dict` and
emits only its class name and `_time_clocked`; the other classes inherit
`BaseTimer.to_dict`. -/
def TimerObj.to_dict (t : TimerObj) : TimerDict :=
  match t.cls with
  | .BasicTimer =>
    { class_name := TimerClass.name .BasicTimer
      start_seconds := none
      increment_seconds := none
      seconds_left := none
      time_clocked := some t.st.time_clocked
      elapsed_times := none
      average_elapsed_time := none }
  | c => BaseTimer.to_dict c t.st

/-- Reading `d[key]` from a dictionary slot: raises `KeyError` when the slot
is absent. -/
def dict_get {α : Type} (slot : Option α) (key : String) : Except PyError α :=
  match slot with
  | some v => .ok v
  | none => .error (.keyError key)

/-- The constructor call `cls(start_seconds=.., increment_seconds=..)` made
by `BaseTimer.from_dict`, dispatched on the class: `IncrementTimer` accepts
both keywords; `BronsteinDelayTimer.__init__` fails inside
`super().__init__(start_seconds)`; `BasicTimer.__init__(self, *args)` takes
no keyword arguments at all. -/
def TimerClass.construct : TimerClass → Rat → Rat → Except PyError BaseTimer
  | .IncrementTimer, s, i => IncrementTimer.init s i
  | .BronsteinDelayTimer, s, m => BronsteinDelayTimer.init s m
  | .BasicTimer, _, _ =>
      .error (.typeError ("BasicTimer.__init__ got an unexpected keyword argument start_seconds"))

/-- Embeds `BaseTimer.from_dict` (inherited by every timer class): reads the stored
keys, calls the class constructor with keyword arguments, then overwrites
`_seconds_left`, `_time_clocked` and `_elapsed_times`. -/
def BaseTimer.from_dict (cls : TimerClass) (d : TimerDict) : Except PyError TimerObj := do
  let ss ← dict_get d.start_seconds ("start_seconds")
  let inc ← dict_get d.increment_seconds ("increment_seconds")
  let t ← TimerClass.construct cls ss inc
  let sl ← dict_get d.seconds_left ("seconds_left")
  let tc ← dict_get d.time_clocked ("time_clocked")
  let et ← dict_get d.elapsed_times ("elapsed_times")
  .ok { cls := cls
        st := { t with seconds_left := sl, time_clocked := tc, elapsed_times := et } }

/-- The `timers` dictionary lookup of timer/__init__.py, `timers[name]`:
raises `KeyError` for an unknown class name. -/
def timers_lookup (name : String) : Except PyError TimerClass :=
  if name = TimerClass.name .BasicTimer then .ok .BasicTimer
  else if name = TimerClass.name .BronsteinDelayTimer then .ok .BronsteinDelayTimer
  else if name = TimerClass.name .IncrementTimer then .ok .IncrementTimer
  else .error (.keyError name)

/-- The dictionary produced by `GameResult.to_dict` of records/result.py. -/
structure GameResultDict where
  board : Chess.Board
  white_timer : TimerDict
  black_timer : TimerDict
  illegal_move : Option IllegalMoveDict
  color : Option Bool
  reason : Option String
  short_reason : Option String
  deriving DecidableEq, Repr

/-- Embeds `GameResult.to_dict`: serializes board, timers and fault, and reads the
three lazily computed properties (computing them if needed); only the
emitted dictionary is returned here, the cache updates on the result object
do not change any emitted value. -/
def GameResult.to_dict (now : Rat) (s : GameResult) : GameResultDict :=
  let (c, s1) := GameResult.color_prop now s
  let (r, s2) := GameResult.reason_prop now s1
  let (sr, _) := GameResult.short_reason_prop now s2
  { board := s.board
    white_timer := s.white_timer.to_dict
    black_timer := s.black_timer.to_dict
    illegal_move := s.illegal_move.map IllegalMove.to_dict
    color := c
    reason := r
    short_reason := sr }

/-- Embeds `GameResult.from_dict`: rebuilds the board, reconstructs both timers
polymorphically through the `timers` registry, and rebuilds the fault; the
caches of the new object are `None`. -/
def GameResult.from_dict (d : GameResultDict) : Except PyError GameResult := do
  let wcls ← timers_lookup d.white_timer.class_name
  let wt ← BaseTimer.from_dict wcls d.white_timer
  let bcls ← timers_lookup d.black_timer.class_name
  let bt ← BaseTimer.from_dict bcls d.black_timer
  .ok (GameResult.init d.board wt bt (d.illegal_move.map IllegalMove.from_dict))

/-- Embeds `chesster.records.game.GameRecord`: an append-only move log seeded with
a record of the initial position, plus the optional final result. -/
structure GameRecord where
  white_ai_type : String
  black_ai_type : String
  moves : List Records.Move
  result : Option GameResult
  deriving DecidableEq, Repr

/-- Embeds `GameRecord.__init__`. -/
def GameRecord.init (initial_board_state : Chess.Board)
    (white_ai_type black_ai_type : String) : GameRecord :=
  { white_ai_type := white_ai_type
    black_ai_type := black_ai_type
    moves := [{ move := none, color := none, time_used := none, board := initial_board_state }]
    result := none }

/-- Embeds `GameRecord.append`: raises `GameEndedException` once the result is
set. -/
def GameRecord.append (g : GameRecord) (m : Records.Move) : Except PyError GameRecord :=
  match g.result with
  | none => .ok { g with moves := g.moves ++ [m] }
  | some _ => .error .gameEnded

/-- The dictionary produced by `GameRecord.to_dict`; the
`initial_board_state` slot stands for `self.moves[0].board.fen()`. -/
structure GameRecordDict where
  initial_board_state : Chess.Board
  white_ai_type : String
  black_ai_type : String
  moves : List Records.MoveDict
  result : Option GameResultDict
  deriving DecidableEq, Repr

/-- Embeds `GameRecord.to_dict`.  `self.moves[0]` always exists because the
constructor seeds the list; the empty case is unreachable and mapped to the
default board. -/
def GameRecord.to_dict (now : Rat) (g : GameRecord) : GameRecordDict :=
  { initial_board_state := (g.moves.headI).board
    white_ai_type := g.white_ai_type
    black_ai_type := g.black_ai_type
    moves := g.moves.map Records.Move.to_dict
    result := g.result.map (GameResult.to_dict now) }

/-- Embeds `GameRecord.from_dict`: rebuild the seed record from the stored initial
position, re-append every later move through `append` (the result is still
`None`, so each append succeeds), then assign the result field directly. -/
def GameRecord.from_dict (d : GameRecordDict) : Except PyError GameRecord := do
  let gr0 := GameRecord.init d.initial_board_state d.white_ai_type d.black_ai_type
  let ms := (d.moves.map Records.Move.from_dict).drop 1
  let gr1 ← ms.foldlM GameRecord.append gr0
  match d.result with
  | some rd => do
      let rs ← GameResult.from_dict rd
      .ok { gr1 with result := some rs }
  | none => .ok gr1

/-- Embeds `chesster.records.match.MatchRecord`. -/
structure MatchRecord where
  wins_required : Int
  game_records : List GameRecord
  deriving DecidableEq, Repr

/-- Embeds `MatchRecord.__init__`: raises `ValueError` when `wins_required < 1`. -/
def MatchRecord.init (wins_required : Int) : Except PyError MatchRecord :=
  if wins_required < 1 then
    .error (.valueError ("Wins required must be 1 or greater"))
  else
    .ok { wins_required := wins_required, game_records := [] }

/-- Embeds `MatchRecord.append`: raises `ValueError` when the appended game record
has no result; any completed game record is accepted. -/
def MatchRecord.append (m : MatchRecord) (g : GameRecord) : Except PyError MatchRecord :=
  match g.result with
  | none => .error (.valueError ("The result of an added GameRecord can be None. Please only add records of completed games"))
  | some _ => .ok { m with game_records := m.game_records ++ [g] }

/-- The value `record.result.color` read by `_count_wins`: the lazily
cached winner of a stored game record.  `append` guarantees the result is
present; the absent case is unreachable and mapped to no winner. -/
def GameRecord.result_color (now : Rat) (g : GameRecord) : Option Bool :=
  match g.result with
  | some rs => (GameResult.color_prop now rs).1
  | none => none

/-- Embeds `MatchRecord._count_wins`. -/
def MatchRecord.count_wins (now : Rat) (m : MatchRecord) (color : Bool) : Nat :=
  (m.game_records.filter (fun g => GameRecord.result_color now g = some color)).length

/-- The property `MatchRecord.winner`: White once White has enough wins,
otherwise Black once Black has enough wins, otherwise `None`. -/
def MatchRecord.winner (now : Rat) (m : MatchRecord) : Option Bool :=
  if m.wins_required ≤ m.count_wins now true then
    some true
  else if m.wins_required ≤ m.count_wins now false then
    some false
  else
    none

/-- An object state of `BaseTimer` under Python reference semantics, for the
analysis of `copy.copy` in `BaseGame.__init__`: the scalar attributes live
in the object, while the mutable `_elapsed_times` list lives in a heap of
lists and the object stores only its index. -/
structure RefTimer where
  start_seconds : Rat
  seconds_left : Rat
  start_time : Option Rat
  time_clocked : Rat
  increment_seconds : Rat
  elapsed_times_ref : Nat
  deriving DecidableEq, Repr

/-- The heap of allocated Python list objects. -/
abbrev ListHeap := List (List Rat)

/-- Embeds `BaseTimer.__init__` under reference semantics: allocates a fresh empty
`_elapsed_times` list on the heap. -/
def RefTimer.init (start_seconds increment_seconds : Rat) (h : ListHeap) :
    RefTimer × ListHeap :=
  ({ start_seconds := start_seconds
     seconds_left := start_seconds
     start_time := none
     time_clocked := 0
     increment_seconds := increment_seconds
     elapsed_times_ref := h.length }, h ++ [[]])

/-- Embeds `copy.copy` on a timer object: a shallow copy duplicates the attribute
slots of the object — including the reference to the `_elapsed_times` list —
without copying the list itself. -/
def RefTimer.copy_copy (t : RefTimer) : RefTimer := t

/-- The timer construction of `BaseGame.__init__` (game/base.py):
`self.white_timer = copy.copy(base_timer)` and
`self.black_timer = copy.copy(base_timer)`. -/
def BaseGame.make_timers (base : RefTimer) : RefTimer × RefTimer :=
  (RefTimer.copy_copy base, RefTimer.copy_copy base)

/-- The `_elapsed_times` list a timer object observes, read through the
heap. -/
def RefTimer.history (h : ListHeap) (t : RefTimer) : List Rat :=
  h.getD t.elapsed_times_ref []

/-- Embeds `BaseTimer.start` under reference semantics. -/
def RefTimer.start (now : Rat) (t : RefTimer) : Except TimerError RefTimer :=
  match t.start_time with
  | some _ => .error .already_running
  | none => .ok { t with start_time := some now }

/-- Embeds `BaseTimer.stop` under reference semantics: the scalar updates rebind
attributes of the stopped object only, while
`self._elapsed_times.append(elapsed)` mutates the heap list in place. -/
def RefTimer.stop (now : Rat) (t : RefTimer) (h : ListHeap) :
    Except TimerError (Rat × RefTimer × ListHeap) :=
  match t.start_time with
  | none => .error .not_running
  | some s =>
    let elapsed := now - s
    .ok (elapsed,
      { t with seconds_left := t.seconds_left - elapsed
               time_clocked := t.time_clocked + elapsed
               start_time := none },
      h.set t.elapsed_times_ref (t.history h ++ [elapsed]))

/-- A running `IncrementTimer` with 5 seconds left and a 10 second increment,
started at instant 0. -/
def incrementExpiredTimer : BaseTimer :=
  { start_seconds := 5
    seconds_left := 5
    start_time := some 0
    time_clocked := 0
    increment_seconds := 10
    elapsed_times := [] }

/-- C3 counterexample: a running IncrementTimer whose move took longer than
the remaining time receives no refund at all from `stop()` — the configured
increment of 10 is not added, because the guard `if self.alive` fails after
the elapsed time is deducted; the claimed unconditional refund would have
left 9 seconds, the code leaves -1. -/
theorem increment_stop_expired_no_refund :
    IncrementTimer.stop 6 incrementExpiredTimer =
      .ok { incrementExpiredTimer with
              seconds_left := -1
              time_clocked := 6
              start_time := none
              elapsed_times := [6] } ∧
    incrementExpiredTimer.seconds_left - 6 + incrementExpiredTimer.increment_seconds = 9 ∧
    (-1 : Rat) ≠ 9 := by
  refine ⟨?_, by norm_num [incrementExpiredTimer], by norm_num⟩
  norm_num [IncrementTimer.stop, BaseTimer.stop, incrementExpiredTimer,
    BaseTimer.elapsed_seconds, BaseTimer.alive, BaseTimer.seconds_left_val,
    Bind.bind, Except.bind, pure, Except.pure]

/-- C3 (amended): on a running `IncrementTimer`, `stop()` deducts the elapsed
time and then refunds exactly the configured increment if and only if the
clock is still alive after the deduction; when the deduction exhausts the
clock, nothing is refunded. -/
theorem increment_stop_refund (now s0 : Rat) (t : BaseTimer)
    (h : t.start_time = some s0) :
    IncrementTimer.stop now t =
      .ok { t with
              seconds_left :=
                if 0 < t.seconds_left - (now - s0) then
                  t.seconds_left - (now - s0) + t.increment_seconds
                else
                  t.seconds_left - (now - s0)
              time_clocked := t.time_clocked + (now - s0)
              start_time := none
              elapsed_times := t.elapsed_times ++ [now - s0] } := by
  obtain ⟨ss, sl, st, tc, inc, et⟩ := t
  simp only at h
  subst h
  by_cases hc : 0 < sl - (now - s0)
  · simp [IncrementTimer.stop, BaseTimer.stop, BaseTimer.elapsed_seconds, BaseTimer.alive,
      BaseTimer.seconds_left_val, Bind.bind, Except.bind, pure, Except.pure, hc]
  · simp [IncrementTimer.stop, BaseTimer.stop, BaseTimer.elapsed_seconds, BaseTimer.alive,
      BaseTimer.seconds_left_val, Bind.bind, Except.bind, pure, Except.pure, hc]

/-- C3 witness: a 2 second move on the same timer leaves 3 seconds, so the
increment of 10 is refunded in full. -/
theorem increment_stop_refund_witness :
    IncrementTimer.stop 2 incrementExpiredTimer =
      .ok { incrementExpiredTimer with
              seconds_left := 13
              time_clocked := 2
              start_time := none
              elapsed_times := [2] } := by
  have h := increment_stop_refund 2 0 incrementExpiredTimer rfl
  simp only [incrementExpiredTimer] at h ⊢
  norm_num at h
  exact h

/-- C4: no `BronsteinDelayTimer` can be constructed at all:
`BronsteinDelayTimer.__init__` calls `super().__init__(start_seconds)` with a
single positional argument, while `BaseTimer.__init__` requires both
`start_seconds` and `increment_seconds`, so every construction raises
`TypeError` before any `stop()` can run. -/
theorem bronstein_init_type_error (start_seconds increment_seconds : Rat) :
    BronsteinDelayTimer.init start_seconds increment_seconds =
      .error (.typeError ("BaseTimer.__init__ missing required positional argument increment_seconds")) := rfl

/-- C4 witness instance at the concrete arguments 60 and 5. -/
theorem bronstein_init_type_error_witness :
    BronsteinDelayTimer.init 60 5 =
      .error (.typeError ("BaseTimer.__init__ missing required positional argument increment_seconds")) :=
  bronstein_init_type_error 60 5

/-- A stopped timer whose remaining time differs from its starting time. -/
def stoppedTimer : BaseTimer :=
  { start_seconds := 60
    seconds_left := 50
    start_time := none
    time_clocked := 7
    increment_seconds := 0
    elapsed_times := [7] }

/-- C7 counterexample: the stored remaining value is not changed only inside
`stop()` — `reset()` also rebinds `_seconds_left` (back to `_start_seconds`),
here from 50 to 60 on a timer that is not running, without any call to
`stop` succeeding. -/
theorem reset_changes_remaining_outside_stop :
    BaseTimer.stop 0 stoppedTimer = .error .not_running ∧
    (BaseTimer.reset 0 stoppedTimer).seconds_left = 60 ∧
    stoppedTimer.seconds_left = 50 ∧
    (BaseTimer.reset 0 stoppedTimer).seconds_left ≠ stoppedTimer.seconds_left := by
  refine ⟨rfl, rfl, rfl, by norm_num [BaseTimer.reset, BaseTimer.stop, stoppedTimer]⟩

/-- C7 (amended): reading `seconds_left` (and `alive`, `time_clocked`) never
mutates any timer state; the value returned is the stored remaining time
minus the time elapsed since start (0 when not running); and apart from the
reads, `start()` also leaves the stored remaining value unchanged — the
stored value is rebound only by `stop()` and by `reset()`. -/
theorem seconds_left_read_pure (now : Rat) (t : BaseTimer) :
    (BaseTimer.seconds_left_read now t).2 = t ∧
    (BaseTimer.alive_read now t).2 = t ∧
    (BaseTimer.time_clocked_read now t).2 = t ∧
    (t.start_time = none → (BaseTimer.seconds_left_read now t).1 = t.seconds_left) ∧
    (∀ s0, t.start_time = some s0 →
        (BaseTimer.seconds_left_read now t).1 = t.seconds_left - (now - s0)) ∧
    (∀ t1, BaseTimer.start now t = .ok t1 → t1.seconds_left = t.seconds_left) := by
  refine ⟨rfl, rfl, rfl, ?_, ?_, ?_⟩
  · intro h
    simp [BaseTimer.seconds_left_read, BaseTimer.elapsed_seconds, h]
  · intro s0 h
    simp [BaseTimer.seconds_left_read, BaseTimer.elapsed_seconds, h]
  · intro t1 h
    unfold BaseTimer.start at h
    cases hs : t.start_time with
    | none => rw [hs] at h; cases h; rfl
    | some s => rw [hs] at h; cases h

/-- C7 witness: polling the stopped timer at instant 9 returns the stored 50
seconds and leaves the timer exactly as it was. -/
theorem seconds_left_read_pure_witness :
    (BaseTimer.seconds_left_read 9 stoppedTimer).1 = 50 ∧
    (BaseTimer.seconds_left_read 9 stoppedTimer).2 = stoppedTimer := by
  have h := seconds_left_read_pure 9 stoppedTimer
  exact ⟨h.2.2.2.1 rfl, h.1⟩

/-- A stopped timer with time left, used as a neutral clock state. -/
def idleTimer : BaseTimer :=
  { start_seconds := 60
    seconds_left := 10
    start_time := none
    time_clocked := 3
    increment_seconds := 2
    elapsed_times := [3] }

/-- The neutral clock as a timer object. -/
def idleTimerObj : TimerObj := ⟨.IncrementTimer, idleTimer⟩

/-- A final position that is checkmate with White to move: White is the
checkmated side, so the winner claimed by the spec is Black. -/
def checkmatedResult : GameResult :=
  GameResult.init { turn := true, color := true, is_checkmate := true }
    idleTimerObj idleTimerObj none

/-- C1: on a checkmated final board the two `GameResult` implementations
disagree.  records/result.py awards the win to the side not to move
(`not self.board.turn`, here Black), as the claim states; but the
game/base.py implementation used by `play_game` awards it to the side to
move (`self.board.turn`, here the checkmated White player). -/
theorem checkmate_winner_disagrees :
    checkmatedResult.board.is_checkmate = true ∧
    checkmatedResult.board.turn = true ∧
    (GameResult.determine_winner 0 checkmatedResult).color_cache = some false ∧
    (GameResult.determine_winner 0 checkmatedResult).reason_cache = some ("checkmate") ∧
    (GameBase.GameResult.determine_winner 0 checkmatedResult.toBase).color_cache = some true ∧
    (GameBase.GameResult.determine_winner 0 checkmatedResult.toBase).reason_cache = some ("Checkmate") := by
  refine ⟨rfl, rfl, ?_, ?_, ?_, ?_⟩ <;>
    simp [GameResult.determine_winner, GameBase.GameResult.determine_winner,
      GameResult.toBase, checkmatedResult, GameResult.init]

/-- C10: when the final board is not checkmate, no fault is recorded, and
both clocks are expired, both implementations award the win to White with a
time-out reason, because the black clock is tested first; in particular no
tie is produced. -/
theorem both_expired_white_wins (now : Rat) (s : GameResult)
    (h1 : s.board.is_checkmate = false) (h2 : s.illegal_move = none)
    (h3 : s.white_timer.st.alive now = false)
    (h4 : s.black_timer.st.alive now = false) :
    (GameResult.determine_winner now s).color_cache = some true ∧
    (GameResult.determine_winner now s).reason_cache = some ("time out") ∧
    (GameBase.GameResult.determine_winner now s.toBase).color_cache = some true ∧
    (GameBase.GameResult.determine_winner now s.toBase).reason_cache = some ("Black ran out of time") := by
  unfold GameResult.determine_winner GameBase.GameResult.determine_winner GameResult.toBase
  simp [h1, h2, h3, h4]

/-- A fully expired stopped clock. -/
def expiredTimer : BaseTimer :=
  { start_seconds := 5
    seconds_left := 0
    start_time := none
    time_clocked := 5
    increment_seconds := 0
    elapsed_times := [5] }

/-- An adjudication state with no checkmate, no fault, and both clocks
expired. -/
def bothExpiredResult : GameResult :=
  GameResult.init { turn := true, color := true, is_checkmate := false }
    ⟨.IncrementTimer, expiredTimer⟩ ⟨.IncrementTimer, expiredTimer⟩ none

/-- C10 witness: the concrete both-expired state is adjudicated as a White
time-out win by both implementations. -/
theorem both_expired_white_wins_witness :
    (GameResult.determine_winner 0 bothExpiredResult).color_cache = some true ∧
    (GameResult.determine_winner 0 bothExpiredResult).reason_cache = some ("time out") ∧
    (GameBase.GameResult.determine_winner 0 bothExpiredResult.toBase).color_cache = some true ∧
    (GameBase.GameResult.determine_winner 0 bothExpiredResult.toBase).reason_cache = some ("Black ran out of time") := by
  refine both_expired_white_wins 0 bothExpiredResult rfl rfl ?_ ?_ <;>
    norm_num [bothExpiredResult, GameResult.init, expiredTimer, BaseTimer.alive,
      BaseTimer.seconds_left_val, BaseTimer.elapsed_seconds]

/-- C2: outside checkmate the fixed adjudication precedence holds: an
illegal-move fault awards the win to the opponent of the offender whatever the
clocks say (in both implementations); otherwise a single expired clock loses
to the other side; otherwise strictly greater remaining seconds win;
otherwise strictly lesser total clocked time wins; otherwise the result is a
total tie with no winner — and the game/base.py implementation assigns the
same winner as records/result.py on every non-checkmate input. -/
theorem adjudication_precedence (now : Rat) (s : GameResult)
    (hcm : s.board.is_checkmate = false) :
    (∀ im, s.illegal_move = some im →
        (GameResult.determine_winner now s).color_cache = some (!im.offending_color) ∧
        (GameResult.determine_winner now s).reason_cache = some ("illegal move") ∧
        (GameBase.GameResult.determine_winner now s.toBase).color_cache = some (!im.offending_color)) ∧
    (s.illegal_move = none →
      (s.black_timer.st.alive now = false → s.white_timer.st.alive now = true →
          (GameResult.determine_winner now s).color_cache = some true ∧
          (GameResult.determine_winner now s).reason_cache = some ("time out")) ∧
      (s.white_timer.st.alive now = false → s.black_timer.st.alive now = true →
          (GameResult.determine_winner now s).color_cache = some false ∧
          (GameResult.determine_winner now s).reason_cache = some ("time out")) ∧
      (s.white_timer.st.alive now = true → s.black_timer.st.alive now = true →
        (s.black_timer.st.seconds_left_val now < s.white_timer.st.seconds_left_val now →
            (GameResult.determine_winner now s).color_cache = some true ∧
            (GameResult.determine_winner now s).reason_cache = some ("more time on timer")) ∧
        (s.white_timer.st.seconds_left_val now < s.black_timer.st.seconds_left_val now →
            (GameResult.determine_winner now s).color_cache = some false ∧
            (GameResult.determine_winner now s).reason_cache = some ("more time on timer")) ∧
        (s.white_timer.st.seconds_left_val now = s.black_timer.st.seconds_left_val now →
          (s.white_timer.st.time_clocked_val now < s.black_timer.st.time_clocked_val now →
              (GameResult.determine_winner now s).color_cache = some true ∧
              (GameResult.determine_winner now s).reason_cache = some ("less time computing")) ∧
          (s.black_timer.st.time_clocked_val now < s.white_timer.st.time_clocked_val now →
              (GameResult.determine_winner now s).color_cache = some false ∧
              (GameResult.determine_winner now s).reason_cache = some ("less time computing")) ∧
          (s.white_timer.st.time_clocked_val now = s.black_timer.st.time_clocked_val now →
              (GameResult.determine_winner now s).color_cache = none ∧
              (GameResult.determine_winner now s).reason_cache = some ("total tie"))))) ∧
    (GameBase.GameResult.determine_winner now s.toBase).color_cache =
      (GameResult.determine_winner now s).color_cache := by
  refine ⟨?_, ?_, ?_⟩
  · intro im him
    simp [GameResult.determine_winner, GameBase.GameResult.determine_winner,
      GameResult.toBase, hcm, him]
  · intro hil
    refine ⟨?_, ?_, ?_⟩
    · intro hb hw
      simp [GameResult.determine_winner, hcm, hil, hb]
    · intro hw hb
      simp [GameResult.determine_winner, hcm, hil, hb, hw]
    · intro hw hb
      refine ⟨?_, ?_, ?_⟩
      · intro hlt
        simp [GameResult.determine_winner, hcm, hil, hb, hw, hlt]
      · intro hlt
        simp [GameResult.determine_winner, hcm, hil, hb, hw, hlt,
          asymm hlt]
      · intro heq
        refine ⟨?_, ?_, ?_⟩
        · intro hct
          simp [GameResult.determine_winner, hcm, hil, hb, hw, heq, hct]
        · intro hct
          simp [GameResult.determine_winner, hcm, hil, hb, hw, heq, hct,
            asymm hct]
        · intro hceq
          simp [GameResult.determine_winner, hcm, hil, hb, hw, heq, hceq]
  · cases him : s.illegal_move with
    | some im =>
      simp [GameResult.determine_winner, GameBase.GameResult.determine_winner,
        GameResult.toBase, hcm, him]
    | none =>
      simp only [GameResult.determine_winner, GameBase.GameResult.determine_winner,
        GameResult.toBase, hcm, him, Bool.false_eq_true, if_false]
      split_ifs <;> rfl

/-- An adjudication state carrying an illegal-move fault by White on a
non-checkmate board. -/
def illegalFaultResult : GameResult :=
  GameResult.init { turn := true, color := true, is_checkmate := false }
    idleTimerObj idleTimerObj
    (some { board := { turn := true, color := true, is_checkmate := false }
            move := { uci := "e2e5" } })

/-- C2 witness: the concrete illegal-move fault by White is adjudicated as a
Black win with the illegal-move reason, whatever the clocks hold. -/
theorem adjudication_precedence_witness :
    (GameResult.determine_winner 0 illegalFaultResult).color_cache = some false ∧
    (GameResult.determine_winner 0 illegalFaultResult).reason_cache = some ("illegal move") := by
  have h := (adjudication_precedence 0 illegalFaultResult rfl).1
    { board := { turn := true, color := true, is_checkmate := false }
      move := { uci := "e2e5" } } rfl
  exact ⟨by simpa [IllegalMove.offending_color] using h.1, h.2.1⟩

/-- The method `_determine_winner` only writes the caches: the board, both timers and
the fault of the result object are untouched. -/
theorem determine_winner_frame (now : Rat) (s : GameResult) :
    (GameResult.determine_winner now s).board = s.board ∧
    (GameResult.determine_winner now s).white_timer = s.white_timer ∧
    (GameResult.determine_winner now s).black_timer = s.black_timer ∧
    (GameResult.determine_winner now s).illegal_move = s.illegal_move := by
  unfold GameResult.determine_winner
  split
  · exact ⟨rfl, rfl, rfl, rfl⟩
  · split
    · exact ⟨rfl, rfl, rfl, rfl⟩
    · split_ifs <;> exact ⟨rfl, rfl, rfl, rfl⟩

/-- The winner cache written by `_determine_winner` depends only on the
board, the two timers and the fault, not on the previous cache contents. -/
theorem determine_winner_congr (now : Rat) (s1 s2 : GameResult)
    (hb : s1.board = s2.board) (hw : s1.white_timer = s2.white_timer)
    (hbt : s1.black_timer = s2.black_timer)
    (hi : s1.illegal_move = s2.illegal_move) :
    (GameResult.determine_winner now s1).color_cache =
      (GameResult.determine_winner now s2).color_cache := by
  unfold GameResult.determine_winner
  rw [hb, hw, hbt, hi]

/-- C8 (amended): the adjudicated winner value is deterministic and reading
it twice yields the identical value, including in the total-tie outcome;
`_determine_winner` has no effect on the board, timers or fault; and the
value is cached after the first computation whenever a winner exists — only
the total-tie outcome, whose cache value is `None`, is recomputed on every
later access. -/
theorem result_color_idempotent (now : Rat) (s : GameResult) :
    (GameResult.color_prop now (GameResult.color_prop now s).2).1 =
      (GameResult.color_prop now s).1 ∧
    (GameResult.determine_winner now s).board = s.board ∧
    (GameResult.determine_winner now s).white_timer = s.white_timer ∧
    (GameResult.determine_winner now s).black_timer = s.black_timer ∧
    (GameResult.determine_winner now s).illegal_move = s.illegal_move ∧
    (∀ c, (GameResult.color_prop now s).1 = some c →
        GameResult.color_runs (GameResult.color_prop now s).2 = false) := by
  have hf := determine_winner_frame now s
  refine ⟨?_, hf.1, hf.2.1, hf.2.2.1, hf.2.2.2, ?_⟩
  · by_cases h : s.color_cache = none
    · simp only [GameResult.color_prop, h, if_true]
      by_cases h2 : (GameResult.determine_winner now s).color_cache = none
      · simp only [h2, if_true]
        rw [determine_winner_congr now (GameResult.determine_winner now s) s
          hf.1 hf.2.1 hf.2.2.1 hf.2.2.2]
        exact h2
      · simp [h2]
    · simp [GameResult.color_prop, h]
  · intro c hc
    by_cases h : s.color_cache = none
    · simp only [GameResult.color_prop, h, if_true] at hc ⊢
      simp [GameResult.color_runs, hc]
    · simp only [GameResult.color_prop, h, if_false] at hc ⊢
      simp [GameResult.color_runs, h]

/-- Two identically configured stopped clocks in a state where remaining
time and clocked time are exactly equal. -/
def tieTimerObj : TimerObj :=
  ⟨.IncrementTimer,
   { start_seconds := 60
     seconds_left := 10
     start_time := none
     time_clocked := 5
     increment_seconds := 2
     elapsed_times := [5] }⟩

/-- An adjudication state whose outcome is the total tie: no checkmate, no
fault, both clocks alive with equal remaining and equal clocked time. -/
def tieResult : GameResult :=
  GameResult.init { turn := true, color := true, is_checkmate := false }
    tieTimerObj tieTimerObj none

/-- C8 counterexample: in the total-tie outcome the `color` accessor is not
computed at most once and cached — `_determine_winner` stores `None` in the
`_color` cache, so the guard `if self._color is None` runs the computation
again on every access (here on both the first and the second read). -/
theorem tie_color_recomputed_every_access :
    GameResult.color_runs tieResult = true ∧
    (GameResult.color_prop 0 tieResult).1 = none ∧
    GameResult.color_runs (GameResult.color_prop 0 tieResult).2 = true ∧
    (GameResult.color_prop 0 (GameResult.color_prop 0 tieResult).2).1 = none := by
  have hdet : (GameResult.determine_winner 0 tieResult).color_cache = none := by
    norm_num [GameResult.determine_winner, tieResult, GameResult.init, tieTimerObj,
      BaseTimer.alive, BaseTimer.seconds_left_val, BaseTimer.time_clocked_val,
      BaseTimer.elapsed_seconds]
  have hc : tieResult.color_cache = none := rfl
  refine ⟨rfl, ?_, ?_, ?_⟩
  · simp [GameResult.color_prop, hc, hdet]
  · simp [GameResult.color_prop, GameResult.color_runs, hc, hdet]
  · have hframe := determine_winner_frame 0 tieResult
    simp only [GameResult.color_prop, hc, if_true, hdet]
    rw [determine_winner_congr 0 (GameResult.determine_winner 0 tieResult) tieResult
      hframe.1 hframe.2.1 hframe.2.2.1 hframe.2.2.2]
    simp [hdet]

/-- C8 witness: on the checkmated concrete state the winner exists, so after
the first read the value is cached and the second read does not recompute. -/
theorem result_color_idempotent_witness :
    (GameResult.color_prop 0 checkmatedResult).1 = some false ∧
    GameResult.color_runs (GameResult.color_prop 0 checkmatedResult).2 = false ∧
    (GameResult.color_prop 0 (GameResult.color_prop 0 checkmatedResult).2).1 = some false := by
  have hval : (GameResult.color_prop 0 checkmatedResult).1 = some false := by
    simp [GameResult.color_prop, GameResult.determine_winner, checkmatedResult,
      GameResult.init]
  have h := result_color_idempotent 0 checkmatedResult
  exact ⟨hval, h.2.2.2.2.2 false hval, h.1.trans hval⟩

/-- A completed game record whose result is a checkmate win for White
(Black is the side to move on the final board). -/
def wonGame : GameRecord :=
  { white_ai_type := "RandomAI"
    black_ai_type := "RandomAI"
    moves := [{ move := none, color := none, time_used := none
                board := { turn := true, color := true, is_checkmate := false } }]
    result := some (GameResult.init
      { turn := false, color := false, is_checkmate := true }
      idleTimerObj idleTimerObj none) }

/-- C5: `MatchRecord.winner` is `None` below the threshold and becomes White
the instant White reaches `wins_required`; but appending a further completed
game record after the winner is set is accepted, not rejected —
`MatchRecord.append` checks only that the new record has a result, and the
declared `MatchEndedException` is never raised. -/
theorem match_append_after_winner_accepted :
    MatchRecord.init 1 = .ok { wins_required := 1, game_records := [] } ∧
    MatchRecord.winner 0 { wins_required := 1, game_records := [] } = none ∧
    MatchRecord.winner 0 { wins_required := 1, game_records := [wonGame] } = some true ∧
    MatchRecord.append { wins_required := 1, game_records := [wonGame] } wonGame =
      .ok { wins_required := 1, game_records := [wonGame, wonGame] } := by
  refine ⟨by norm_num [MatchRecord.init], ?_, ?_, rfl⟩
  · norm_num [MatchRecord.winner, MatchRecord.count_wins]
  · norm_num [MatchRecord.winner, MatchRecord.count_wins, GameRecord.result_color,
      wonGame, GameResult.color_prop, GameResult.determine_winner, GameResult.init]

/-- The configuration timer handed to `BaseGame.__init__`, together with the
heap holding its freshly allocated `_elapsed_times` list. -/
def configAlloc : RefTimer × ListHeap := RefTimer.init 60 0 []

/-- The clock of the white player: `copy.copy(base_timer)`. -/
def whiteTimerGame : RefTimer := (BaseGame.make_timers configAlloc.1).1

/-- The clock of the black player: `copy.copy(base_timer)`. -/
def blackTimerGame : RefTimer := (BaseGame.make_timers configAlloc.1).2

/-- C6: the two per-player clocks made by `BaseGame.__init__` are shallow
copies of one configuration timer, so all three objects share one
`_elapsed_times` list: starting and stopping the white clock (a 3 second
move) appends 3 to the history observed by the black clock and by the
configuration timer, although neither was ever started. -/
theorem copied_timers_share_history :
    RefTimer.history configAlloc.2 blackTimerGame = [] ∧
    RefTimer.start 0 whiteTimerGame = .ok { whiteTimerGame with start_time := some 0 } ∧
    RefTimer.stop 3 { whiteTimerGame with start_time := some 0 } configAlloc.2 =
      .ok (3,
        { whiteTimerGame with seconds_left := 57, start_time := none, time_clocked := 3 },
        [[3]]) ∧
    RefTimer.history [[3]] blackTimerGame = [3] ∧
    RefTimer.history [[3]] configAlloc.1 = [3] ∧
    blackTimerGame.elapsed_times_ref = whiteTimerGame.elapsed_times_ref := by
  refine ⟨rfl, rfl, ?_, rfl, rfl, rfl⟩
  norm_num [RefTimer.stop, RefTimer.history, whiteTimerGame, BaseGame.make_timers,
    RefTimer.copy_copy, configAlloc, RefTimer.init]

/-- Intermediate positions of the serialized example game. -/
def boardStart : Chess.Board := { turn := true, color := true, is_checkmate := false }

/-- Position after the first move. -/
def boardAfter1 : Chess.Board := { turn := false, color := false, is_checkmate := false }

/-- Position after the second move. -/
def boardAfter2 : Chess.Board := { turn := true, color := true, is_checkmate := false }

/-- Final position: checkmate with Black to move, so the result is a
non-tie (White wins by checkmate). -/
def boardFinal : Chess.Board := { turn := false, color := false, is_checkmate := true }

/-- A move log with the seed record plus three real moves. -/
def exampleMoves : List Records.Move :=
  [ { move := none, color := none, time_used := none, board := boardStart },
    { move := some { uci := "e2e4" }, color := some true, time_used := some 4, board := boardAfter1 },
    { move := some { uci := "f7f6" }, color := some false, time_used := some 3, board := boardAfter2 },
    { move := some { uci := "d1h5" }, color := some true, time_used := some 5, board := boardFinal } ]

/-- A stopped `BasicTimer` state.  `BasicTimer.__init__` sets
`_start_seconds` to `numpy.inf`, which has no rational counterpart;
`BasicTimer.to_dict` reads none of the fields this witness fills with 0, so
the serialized output is unaffected. -/
def basicTimerObj : TimerObj :=
  ⟨.BasicTimer,
   { start_seconds := 0
     seconds_left := 0
     start_time := none
     time_clocked := 9
     increment_seconds := 0
     elapsed_times := [4, 5] }⟩

/-- A stopped `BronsteinDelayTimer` state as it would exist had construction
succeeded. -/
def bronsteinTimerObj : TimerObj :=
  ⟨.BronsteinDelayTimer,
   { start_seconds := 60
     seconds_left := 40
     start_time := none
     time_clocked := 9
     increment_seconds := 2
     elapsed_times := [4, 5] }⟩

/-- A stopped `IncrementTimer` state. -/
def incrementTimerObj : TimerObj :=
  ⟨.IncrementTimer,
   { start_seconds := 60
     seconds_left := 40
     start_time := none
     time_clocked := 9
     increment_seconds := 2
     elapsed_times := [4, 5] }⟩

/-- The example game played under `BasicTimer` clocks: three moves and a
checkmate result. -/
def basicGameRecord : GameRecord :=
  { white_ai_type := "RandomAI"
    black_ai_type := "WayneAI"
    moves := exampleMoves
    result := some (GameResult.init boardFinal basicTimerObj basicTimerObj none) }

/-- The example game under `BronsteinDelayTimer` clocks. -/
def bronsteinGameRecord : GameRecord :=
  { white_ai_type := "RandomAI"
    black_ai_type := "WayneAI"
    moves := exampleMoves
    result := some (GameResult.init boardFinal bronsteinTimerObj bronsteinTimerObj none) }

/-- The example game under `IncrementTimer` clocks. -/
def incrementGameRecord : GameRecord :=
  { white_ai_type := "RandomAI"
    black_ai_type := "WayneAI"
    moves := exampleMoves
    result := some (GameResult.init boardFinal incrementTimerObj incrementTimerObj none) }

/-- C9: the serialize-deserialize round trip crashes for two of the three
supported timer kinds.  For `BasicTimer`, `to_dict` emits only the class
name and `_time_clocked`, and the inherited `from_dict` immediately raises
`KeyError` on the missing `start_seconds` key; for `BronsteinDelayTimer`,
`from_dict` reaches the constructor, which raises `TypeError` because
`BronsteinDelayTimer.__init__` passes a single positional argument to
`BaseTimer.__init__`.  Only `IncrementTimer` records round-trip, and for
them the second serialization is identical to the first, move and board
strings included. -/
theorem serialization_round_trip_by_timer_kind :
    GameRecord.from_dict (GameRecord.to_dict 0 basicGameRecord) =
      .error (.keyError ("start_seconds")) ∧
    GameRecord.from_dict (GameRecord.to_dict 0 bronsteinGameRecord) =
      .error (.typeError ("BaseTimer.__init__ missing required positional argument increment_seconds")) ∧
    GameRecord.from_dict (GameRecord.to_dict 0 incrementGameRecord) = .ok incrementGameRecord ∧
    (GameRecord.from_dict (GameRecord.to_dict 0 incrementGameRecord)).map (GameRecord.to_dict 0) =
      .ok (GameRecord.to_dict 0 incrementGameRecord) := by
  have hbasic : GameRecord.from_dict (GameRecord.to_dict 0 basicGameRecord) =
      .error (.keyError ("start_seconds")) := by
    norm_num [GameRecord.from_dict, GameRecord.to_dict, GameRecord.init, GameRecord.append,
      GameResult.from_dict, GameResult.to_dict, GameResult.init, GameResult.color_prop,
      GameResult.reason_prop, GameResult.short_reason_prop, GameResult.determine_winner,
      BaseTimer.from_dict, TimerObj.to_dict, BaseTimer.to_dict, BaseTimer.average_elapsed_time,
      TimerClass.construct, TimerClass.name, timers_lookup, dict_get,
      IncrementTimer.init, BronsteinDelayTimer.init, BaseTimer.init_argv,
      Records.Move.to_dict, Records.Move.from_dict, Records.Move.color_name,
      basicGameRecord, exampleMoves, basicTimerObj, boardStart, boardAfter1, boardAfter2,
      boardFinal, List.headI, List.foldlM, Bind.bind, Except.bind, pure, Except.pure,
      Except.map]
  have hs1 : ("BronsteinDelayTimer" : String) ≠ "BasicTimer" := by decide
  have hs2 : ("IncrementTimer" : String) ≠ "BasicTimer" := by decide
  have hs3 : ("IncrementTimer" : String) ≠ "BronsteinDelayTimer" := by decide
  have hbron : GameRecord.from_dict (GameRecord.to_dict 0 bronsteinGameRecord) =
      .error (.typeError ("BaseTimer.__init__ missing required positional argument increment_seconds")) := by
    norm_num [hs1, GameRecord.from_dict, GameRecord.to_dict, GameRecord.init, GameRecord.append,
      GameResult.from_dict, GameResult.to_dict, GameResult.init, GameResult.color_prop,
      GameResult.reason_prop, GameResult.short_reason_prop, GameResult.determine_winner,
      BaseTimer.from_dict, TimerObj.to_dict, BaseTimer.to_dict, BaseTimer.average_elapsed_time,
      TimerClass.construct, TimerClass.name, timers_lookup, dict_get,
      IncrementTimer.init, BronsteinDelayTimer.init, BaseTimer.init_argv,
      Records.Move.to_dict, Records.Move.from_dict, Records.Move.color_name,
      bronsteinGameRecord, exampleMoves, bronsteinTimerObj, boardStart, boardAfter1,
      boardAfter2, boardFinal, List.headI, List.foldlM, Bind.bind, Except.bind, pure,
      Except.pure, Except.map]
  have hinc : GameRecord.from_dict (GameRecord.to_dict 0 incrementGameRecord) =
      .ok incrementGameRecord := by
    norm_num [hs2, hs3, Chess.Move.from_uci, GameRecord.from_dict, GameRecord.to_dict, GameRecord.init, GameRecord.append,
      GameResult.from_dict, GameResult.to_dict, GameResult.init, GameResult.color_prop,
      GameResult.reason_prop, GameResult.short_reason_prop, GameResult.determine_winner,
      BaseTimer.from_dict, TimerObj.to_dict, BaseTimer.to_dict, BaseTimer.average_elapsed_time,
      TimerClass.construct, TimerClass.name, timers_lookup, dict_get,
      IncrementTimer.init, BronsteinDelayTimer.init, BaseTimer.init_argv,
      Records.Move.to_dict, Records.Move.from_dict, Records.Move.color_name,
      incrementGameRecord, exampleMoves, incrementTimerObj, boardStart, boardAfter1,
      boardAfter2, boardFinal, List.headI, List.foldlM, Bind.bind, Except.bind, pure,
      Except.pure, Except.map]
  refine ⟨hbasic, hbron, hinc, ?_⟩
  rw [hinc]
  rfl
